import Mathlib

/-!
Shallow embedding of `src/app.py` (Saver): a Flask app aggregating a user's
saved YouTube videos and Reddit posts into one page.

Python exceptions are modelled with `Except PyError`; the external provider
SDK calls (`request.execute()`, `reddit.user.me().saved(...)`,
`flow.fetch_token`, `reddit.auth.authorize`) are oracles: their outcome for the
current request is a parameter of the embedded function.  The Flask session is
the `Session` structure; client handles stored in the session are modelled by
their truthiness (a handle is present or absent), since the code only ever
tests them with `session.get(...)` and hands them to a fetcher.  Time is `Int`
(Python `time.time()` arithmetic on the real line; only subtraction and `>=`
comparison are used).
-/

namespace Saver

/-- A raised Python exception, tagged by the class the handlers dispatch on:
`googleapiclient.errors.HttpError`, `KeyError` (carrying the missing key), or
any other exception (carrying `str(e)`). -/
inductive PyError where
  | httpError : String → PyError
  | keyError : String → PyError
  | other : String → PyError
deriving DecidableEq, Repr

/-- Is the exception an instance of `googleapiclient.errors.HttpError`
(the only class caught by `fetch_youtube_saved_videos`)? -/
def PyError.isHttp : PyError → Bool
  | .httpError _ => true
  | _ => false

/-- `str(e)` of the exception, as interpolated by `f"Reddit login failed: {e}"`. -/
def PyError.msg : PyError → String
  | .httpError m => m
  | .keyError k => k
  | .other m => m

/-- Normalized YouTube record built at app.py lines 76-80:
`{"title": ..., "url": ..., "thumbnail": ...}`. -/
structure YtVideo where
  title : String
  url : String
  thumbnail : String
deriving DecidableEq, Repr

/-- Normalized Reddit record built at app.py lines 91-95:
`{"title": ..., "url": ..., "subreddit": ...}`. -/
structure RedditPost where
  title : String
  url : String
  subreddit : String
deriving DecidableEq, Repr

/-- `item["snippet"]["thumbnails"]["default"]` — a dict with an optional
`"url"` key (absence of a key raises `KeyError`). -/
structure YtThumb where
  url : Option String
deriving DecidableEq, Repr

/-- `item["snippet"]["thumbnails"]` — a dict with an optional `"default"` key. -/
structure YtThumbs where
  dflt : Option YtThumb
deriving DecidableEq, Repr

/-- `item["snippet"]` — a dict with optional `"title"` and `"thumbnails"` keys. -/
structure YtSnippet where
  title : Option String
  thumbnails : Option YtThumbs
deriving DecidableEq, Repr

/-- One item of the YouTube API response, a dict with optional `"id"` and
`"snippet"` keys. -/
structure YtItem where
  id : Option String
  snippet : Option YtSnippet
deriving DecidableEq, Repr

/-- The YouTube API response dict; `response.get("items", [])` defaults a
missing `"items"` key to the empty list. -/
structure YtResponse where
  items : Option (List YtItem)
deriving DecidableEq, Repr

/-- Python dict subscription `d[key]`: raises `KeyError(key)` when absent. -/
def dictGet (key : String) : Option α → Except PyError α
  | some v => .ok v
  | none => .error (.keyError key)

/-- The dict literal of app.py lines 76-80, with Python's left-to-right key
evaluation order: `item["snippet"]["title"]`, then `item["id"]`, then
`item["snippet"]["thumbnails"]["default"]["url"]`. Any missing key raises. -/
def normalizeYtItem (item : YtItem) : Except PyError YtVideo := do
  let snip ← dictGet "snippet" item.snippet
  let t ← dictGet "title" snip.title
  let vid ← dictGet "id" item.id
  let snip2 ← dictGet "snippet" item.snippet
  let thumbs ← dictGet "thumbnails" snip2.thumbnails
  let th ← dictGet "default" thumbs.dflt
  let turl ← dictGet "url" th.url
  return { title := t, url := "https://www.youtube.com/watch?v=" ++ vid, thumbnail := turl }

/-- The `for item in response.get("items", [])` loop body appending to
`videos`: items are normalized left to right, and the first raised exception
aborts the whole loop (the partial `videos` list is discarded). -/
def normalizeYtList : List YtItem → Except PyError (List YtVideo)
  | [] => .ok []
  | item :: rest =>
    match normalizeYtItem item with
    | .error e => .error e
    | .ok v =>
      match normalizeYtList rest with
      | .error e => .error e
      | .ok vs => .ok (v :: vs)

/-- Outcome of `youtube_api.videos().list(part="snippet", myRating="like",
maxResults=10).execute()` for this request: it either raises an `HttpError`,
raises some other exception, or returns a response dict. -/
inductive YtApiResult where
  | httpError : String → YtApiResult
  | otherError : String → YtApiResult
  | success : YtResponse → YtApiResult
deriving DecidableEq, Repr

/-- Body of the `try:` block of `fetch_youtube_saved_videos`
(app.py lines 69-81). -/
def ytFetchBody : YtApiResult → Except PyError (List YtVideo)
  | .httpError m => .error (.httpError m)
  | .otherError m => .error (.other m)
  | .success resp => normalizeYtList (resp.items.getD [])

/-- `fetch_youtube_saved_videos` (app.py lines 67-83): runs the body; the
`except googleapiclient.errors.HttpError` clause turns an `HttpError` into
`[]`, while every other exception propagates to the caller. -/
def fetch_youtube_saved_videos (api : YtApiResult) : Except PyError (List YtVideo) :=
  match ytFetchBody api with
  | .ok vs => .ok vs
  | .error e => if e.isHttp then .ok [] else .error e

/-- One element of `reddit.user.me().saved(limit=10)`: a submission carries a
`title` attribute (plus `permalink` and `subreddit.display_name`); a saved
comment has no `title` attribute, which is what `hasattr(item, "title")`
tests. -/
inductive RedditSaved where
  | submission (title permalink subredditName : String) : RedditSaved
  | comment : RedditSaved
deriving DecidableEq, Repr

/-- Outcome of `reddit.user.me().saved(limit=10)` and its iteration for this
request: either some call raises, or the saved listing is produced. -/
inductive RedditApiResult where
  | failure : String → RedditApiResult
  | success : List RedditSaved → RedditApiResult
deriving DecidableEq, Repr

/-- The `if hasattr(item, "title")` branch of app.py lines 90-95: submissions
are normalized, saved comments are skipped. -/
def normalizeRedditItem : RedditSaved → Option RedditPost
  | .submission t p sr =>
      some { title := t, url := "https://reddit.com" ++ p, subreddit := sr }
  | .comment => none

/-- Body of the `try:` block of `fetch_reddit_saved_posts`
(app.py lines 87-96). -/
def redditFetchBody : RedditApiResult → Except PyError (List RedditPost)
  | .failure m => .error (.other m)
  | .success items => .ok (items.filterMap normalizeRedditItem)

/-- `fetch_reddit_saved_posts` (app.py lines 85-98): the bare
`except Exception` clause turns every raised exception into `[]`, so this
fetcher never raises. -/
def fetch_reddit_saved_posts (r : RedditApiResult) : List RedditPost :=
  match redditFetchBody r with
  | .ok l => l
  | .error _ => []

/-- The Flask session after `init_session` has typed every key
(app.py lines 33-53).  `youtube_api` and `reddit` model the truthiness of the
stored client handles (`session.get(...)` is only ever used as a boolean test
before handing the handle to a fetcher). -/
structure Session where
  youtube_credentials : Option String
  reddit_access_token : Option String
  youtube_api : Bool
  reddit : Bool
  youtube_videos : List YtVideo
  reddit_posts : List RedditPost
  last_sync_time : Int
  sync_interval : Int
  oauth_state : Option String
  oauth_flow : Option String
deriving DecidableEq, Repr

/-- The session defaults installed by `init_session` (app.py lines 33-53). -/
def initSession : Session where
  youtube_credentials := none
  reddit_access_token := none
  youtube_api := false
  reddit := false
  youtube_videos := []
  reddit_posts := []
  last_sync_time := 0
  sync_interval := 60
  oauth_state := none
  oauth_flow := none

/-- The external world for one request: what each provider would answer if
fetched now. -/
structure Env where
  yt : YtApiResult
  rd : RedditApiResult
deriving DecidableEq, Repr

/-- Which fetchers a request actually invoked, in invocation order. -/
inductive Provider where
  | youtube
  | reddit
deriving DecidableEq, Repr

/-- The `if session.get("reddit"):` step of `sync_content`
(app.py lines 106-107); `fetch_reddit_saved_posts` never raises. -/
def redditStep (s : Session) (env : Env) : Session × List Provider :=
  if s.reddit then
    ({ s with reddit_posts := fetch_reddit_saved_posts env.rd }, [Provider.reddit])
  else (s, [])

/-- `sync_content` (app.py lines 100-108) invoked at `time.time() = now`.
Returns the session as mutated so far, the exception it raises (if any), and
the list of fetch attempts made.  When the YouTube fetch raises a
non-`HttpError`, the assignment to `session["youtube_videos"]`, the Reddit
branch and the `last_sync_time` update are all skipped and the exception
propagates. -/
def sync_content (s : Session) (env : Env) (now : Int) :
    Session × Option PyError × List Provider :=
  if now - s.last_sync_time ≥ s.sync_interval then
    if s.youtube_api then
      match fetch_youtube_saved_videos env.yt with
      | .error e => (s, some e, [Provider.youtube])
      | .ok vs =>
          let s1 := { s with youtube_videos := vs }
          let (s2, a2) := redditStep s1 env
          ({ s2 with last_sync_time := now }, none, Provider.youtube :: a2)
    else
      let (s2, a2) := redditStep s env
      ({ s2 with last_sync_time := now }, none, a2)
  else (s, none, [])

/-- An HTTP response of this app: a Flask `redirect(url_for(route))`, a
rendered template, a `(body, status)` plain-text pair, or an exception that
escaped the handler. -/
inductive Resp where
  | redirectTo : String → Resp
  | html : String → Resp
  | plain : String → Nat → Resp
  | serverError : PyError → Resp
deriving DecidableEq, Repr

/-- Python truthiness of `session.get("youtube_credentials")`: `None` and the
empty string are falsy. -/
def optStrTruthy : Option String → Bool
  | none => false
  | some s => !s.isEmpty

/-- The landing route `index` (app.py lines 111-120): sync, then redirect to
the login chooser when neither provider is authenticated, else render the
content page.  (`init_session` is the identity on an already-typed
`Session`.) -/
def index (s : Session) (env : Env) (now : Int) : Resp × Session :=
  match sync_content s env now with
  | (s1, some e, _) => (.serverError e, s1)
  | (s1, none, _) =>
    if !optStrTruthy s1.youtube_credentials && !s1.reddit then
      (.redirectTo "login", s1)
    else
      (.html "content", s1)

/-- The query-string parameters the callback routes read. -/
structure QueryArgs where
  code : Option String
  state : Option String
deriving DecidableEq, Repr

/-- `youtube_callback` (app.py lines 159-179).  `exchange` is the outcome of
`flow.fetch_token(code=...)` followed by `flow.credentials.to_json()` (ok:
the serialized credentials; error: the exception text — not wrapped by any
handler, so it escapes).  The returned `Bool` records whether a token
exchange was attempted. -/
def youtube_callback (args : QueryArgs) (s : Session) (exchange : Except String String)
    (env : Env) (now : Int) : Resp × Session × Bool :=
  match args.code, args.state with
  | none, _ => (.plain "Error: Missing code or state parameter" 400, s, false)
  | some _, none => (.plain "Error: Missing code or state parameter" 400, s, false)
  | some _, some st =>
    if s.oauth_state = none ∨ s.oauth_state ≠ some st then
      (.plain "Error: OAuth state mismatch" 400, s, false)
    else
      match exchange with
      | .error m => (.serverError (.other m), s, true)
      | .ok creds =>
        let s1 := { s with youtube_credentials := some creds, youtube_api := true }
        match sync_content s1 env now with
        | (s2, some e, _) => (.serverError e, s2, true)
        | (s2, none, _) => (.redirectTo "index", s2, true)

/-- `reddit_callback` (app.py lines 181-197).  `auth` is the outcome of
constructing the `praw.Reddit` client and calling
`reddit.auth.authorize(code)`.  The whole body sits in a
`try: ... except Exception` that answers
`(f"Reddit login failed: {e}", 400)`, so even an exception raised later by
`sync_content` is reported that way.  The returned `Bool` records whether a
token exchange was attempted. -/
def reddit_callback (args : QueryArgs) (s : Session) (auth : Except String Unit)
    (env : Env) (now : Int) : Resp × Session × Bool :=
  match args.code with
  | none => (.plain "Error: Missing code parameter" 400, s, false)
  | some _ =>
    match auth with
    | .error e => (.plain ("Reddit login failed: " ++ e) 400, s, true)
    | .ok _ =>
      let s1 := { s with reddit := true }
      match sync_content s1 env now with
      | (s2, some e, _) => (.plain ("Reddit login failed: " ++ e.msg) 400, s2, true)
      | (s2, none, _) => (.redirectTo "index", s2, true)

/-- `logout_youtube` (app.py lines 199-204). -/
def logout_youtube (s : Session) : Resp × Session :=
  (.redirectTo "index",
   { s with youtube_credentials := none, youtube_api := false, youtube_videos := [] })

/-- `logout_reddit` (app.py lines 206-210).  Note: `reddit_access_token` is
not touched. -/
def logout_reddit (s : Session) : Resp × Session :=
  (.redirectTo "index", { s with reddit := false, reddit_posts := [] })

/-- The force-sync route `sync` (app.py lines 212-216): zero the timestamp,
run the gate, redirect.  Also reports `sync_content`'s fetch attempts. -/
def sync (s : Session) (env : Env) (now : Int) : Resp × Session × List Provider :=
  match sync_content { s with last_sync_time := 0 } env now with
  | (s1, some e, att) => (.serverError e, s1, att)
  | (s1, none, att) => (.redirectTo "index", s1, att)

/-! ## Shared helper lemmas -/

/-- A successful `normalizeYtList` run has one output per input, the `i`-th
output being the normalization of the `i`-th input (order preserved). -/
theorem normalizeYtList_ok (l : List YtItem) (r : List YtVideo)
    (h : normalizeYtList l = Except.ok r) :
    r.length = l.length ∧ ∀ i (h1 : i < l.length) (h2 : i < r.length),
      normalizeYtItem (l.get ⟨i, h1⟩) = Except.ok (r.get ⟨i, h2⟩) := by
  induction l generalizing r with
  | nil =>
    simp only [normalizeYtList, Except.ok.injEq] at h
    subst h
    exact ⟨rfl, fun i h1 => by simp at h1⟩
  | cons a rest ih =>
    simp only [normalizeYtList] at h
    cases ha : normalizeYtItem a with
    | error e => rw [ha] at h; cases h
    | ok v =>
      rw [ha] at h
      cases hr : normalizeYtList rest with
      | error e => rw [hr] at h; cases h
      | ok vs =>
        rw [hr] at h
        cases h
        obtain ⟨hlen, hpt⟩ := ih vs hr
        refine ⟨by simp [hlen], ?_⟩
        intro i h1 h2
        match i with
        | 0 => exact ha
        | Nat.succ j =>
          simp only [List.length_cons, Nat.succ_lt_succ_iff] at h1 h2
          exact hpt j h1 h2

/-- When the gate is stale and the YouTube fetch (if attempted) succeeds,
`sync_content` overwrites each authenticated provider's list, stamps
`last_sync_time`, and attempts exactly the authenticated providers in order. -/
theorem sync_content_stale_eq (s : Session) (env : Env) (now : Int) (vs : List YtVideo)
    (hst : s.sync_interval ≤ now - s.last_sync_time)
    (hvs : s.youtube_api = true → fetch_youtube_saved_videos env.yt = Except.ok vs) :
    sync_content s env now =
      ({ s with
          youtube_videos := if s.youtube_api then vs else s.youtube_videos,
          reddit_posts := if s.reddit then fetch_reddit_saved_posts env.rd else s.reddit_posts,
          last_sync_time := now },
       none,
       (if s.youtube_api then [Provider.youtube] else [])
         ++ (if s.reddit then [Provider.reddit] else [])) := by
  unfold sync_content redditStep
  rw [if_pos hst]
  cases hyt : s.youtube_api with
  | false => cases hrd : s.reddit <;> simp [hyt, hrd]
  | true =>
    rw [hvs hyt]
    cases hrd : s.reddit <;> simp [hyt, hrd]

/-! ## Claims -/

/-- C1 counterexample: the claim says every provider-side error, including a
missing field in an item, makes `fetch_youtube_saved_videos` return an empty
sequence without raising.  On a response whose single item lacks the
`"snippet"` key, the fetcher instead propagates `KeyError("snippet")` to its
caller: only `googleapiclient.errors.HttpError` is caught. -/
theorem fetchYoutube_propagates_keyError :
    fetch_youtube_saved_videos
        (YtApiResult.success { items := some [{ id := some "abc", snippet := none }] })
      = Except.error (PyError.keyError "snippet") := rfl

/-- C1 (amended): the Reddit fetcher recovers from every error and returns
`[]`; the YouTube fetcher returns `[]` on `HttpError` (transport/API errors),
and any exception it does propagate is a non-`HttpError` one (in particular
the `KeyError` of a missing item field). -/
theorem fetch_error_recovery (m : String) (api : YtApiResult) (e : PyError)
    (r : RedditApiResult) (em : String) :
    fetch_youtube_saved_videos (YtApiResult.httpError m) = Except.ok []
    ∧ (fetch_youtube_saved_videos api = Except.error e → e.isHttp = false)
    ∧ (r = RedditApiResult.failure em → fetch_reddit_saved_posts r = []) := by
  refine ⟨rfl, ?_, ?_⟩
  · intro h
    unfold fetch_youtube_saved_videos at h
    cases hb : ytFetchBody api with
    | ok vs => rw [hb] at h; cases h
    | error e1 =>
      rw [hb] at h
      cases he : e1.isHttp <;> simp [he] at h
      exact h ▸ he
  · intro h
    subst h
    rfl

/-- A response whose single item has a snippet without a `"title"` key. -/
def untitledResponse : YtApiResult :=
  YtApiResult.success ⟨some [⟨some "x", some ⟨none, none⟩⟩]⟩

/-- C1 witness. -/
theorem fetch_error_recovery_witness :
    fetch_youtube_saved_videos (YtApiResult.httpError "boom") = Except.ok []
    ∧ (PyError.keyError "title").isHttp = false
    ∧ fetch_reddit_saved_posts (RedditApiResult.failure "down") = [] :=
  ⟨(fetch_error_recovery "boom" untitledResponse
      (PyError.keyError "title") (RedditApiResult.failure "down") "down").1,
   (fetch_error_recovery "boom" untitledResponse
      (PyError.keyError "title") (RedditApiResult.failure "down") "down").2.1 rfl,
   (fetch_error_recovery "boom" untitledResponse
      (PyError.keyError "title") (RedditApiResult.failure "down") "down").2.2 rfl⟩

/-- C2 counterexample: the claim says logout clears exactly that provider's
credential, client handle and cached items.  `logout_reddit` never touches the
`reddit_access_token` credential field: on a session holding
`reddit_access_token = some "tok"`, the token is still there after logout. -/
theorem logoutReddit_keeps_access_token :
    ((logout_reddit
        { initSession with reddit_access_token := some "tok", reddit := true }).2).reddit_access_token
      = some "tok" := rfl

/-- C2 (amended): `logout_youtube` clears exactly the YouTube credential,
client handle and cached videos; `logout_reddit` clears the Reddit client
handle and cached posts but leaves the `reddit_access_token` field unchanged
(it is never written anywhere else either).  All other session fields — in
particular every field of the other provider — are byte-identical before and
after. -/
theorem logout_frame (s : Session) :
    logout_youtube s = (Resp.redirectTo "index",
      { s with youtube_credentials := none, youtube_api := false, youtube_videos := [] })
    ∧ logout_reddit s = (Resp.redirectTo "index",
      { s with reddit := false, reddit_posts := [] })
    ∧ (logout_reddit s).2.reddit_access_token = s.reddit_access_token :=
  ⟨rfl, rfl, rfl⟩

/-- C3: a fresh gate (`now - last_sync_time < sync_interval`) leaves the
whole session — in particular both cached item lists and `last_sync_time` —
unchanged, raises nothing, and attempts no fetch. -/
theorem sync_content_fresh (s : Session) (env : Env) (now : Int)
    (h : now - s.last_sync_time < s.sync_interval) :
    sync_content s env now = (s, none, []) := by
  unfold sync_content
  rw [if_neg (not_le.mpr h)]

/-- C3 witness. -/
theorem sync_content_fresh_witness :
    ((30 : Int) - initSession.last_sync_time < initSession.sync_interval)
    ∧ sync_content initSession
        { yt := YtApiResult.httpError "x", rd := RedditApiResult.failure "y" } 30
      = (initSession, none, []) :=
  ⟨by decide,
   sync_content_fresh initSession
     { yt := YtApiResult.httpError "x", rd := RedditApiResult.failure "y" } 30 (by decide)⟩

/-- A stale session in which both providers hold a client handle. -/
def bothAuthSession : Session :=
  { initSession with youtube_api := true, reddit := true }

/-- An environment whose YouTube response has one item lacking the
`"snippet"` key, and a benign Reddit listing. -/
def keyErrorEnv : Env :=
  { yt := YtApiResult.success ⟨some [⟨some "a", none⟩]⟩,
    rd := RedditApiResult.success [] }

/-- C4 counterexample: the claim says a stale invocation makes exactly one
fetch attempt per provider with an active handle (independently) and sets
`lastSyncTime` to `now`.  With both handles active and a YouTube item lacking
its `"snippet"` key, the YouTube fetch raises, the Reddit fetch is never
attempted, and `last_sync_time` stays `0` instead of becoming `1000`. -/
theorem stale_sync_aborts_on_keyError :
    sync_content bothAuthSession keyErrorEnv 1000
      = (bothAuthSession, some (PyError.keyError "snippet"), [Provider.youtube])
    ∧ bothAuthSession.reddit = true
    ∧ Provider.reddit ∉ (sync_content bothAuthSession keyErrorEnv 1000).2.2
    ∧ (sync_content bothAuthSession keyErrorEnv 1000).1.last_sync_time ≠ 1000 := by
  decide

/-- C4 (amended): on a stale invocation, provided the YouTube fetch does not
propagate an exception (it can, on a missing item field — see C1), exactly one
fetch attempt occurs per provider with an active client handle, independently;
that provider's cached list is overwritten with the fetch result and
`last_sync_time` is set to the invocation time. -/
theorem stale_sync_fetches (s : Session) (env : Env) (now : Int) (vs : List YtVideo)
    (hst : s.sync_interval ≤ now - s.last_sync_time)
    (hvs : fetch_youtube_saved_videos env.yt = Except.ok vs) :
    sync_content s env now =
      ({ s with
          youtube_videos := if s.youtube_api then vs else s.youtube_videos,
          reddit_posts := if s.reddit then fetch_reddit_saved_posts env.rd else s.reddit_posts,
          last_sync_time := now },
       none,
       (if s.youtube_api then [Provider.youtube] else [])
         ++ (if s.reddit then [Provider.reddit] else []))
    ∧ ((sync_content s env now).2.2.count Provider.youtube
        = if s.youtube_api then 1 else 0)
    ∧ ((sync_content s env now).2.2.count Provider.reddit
        = if s.reddit then 1 else 0) := by
  have h := sync_content_stale_eq s env now vs hst (fun _ => hvs)
  refine ⟨h, ?_, ?_⟩ <;>
    rw [h] <;> cases s.youtube_api <;> cases s.reddit <;> rfl

/-- C4 witness. -/
theorem stale_sync_fetches_witness :
    (bothAuthSession.sync_interval ≤ (100 : Int) - bothAuthSession.last_sync_time
      ∧ fetch_youtube_saved_videos (YtApiResult.success ⟨some []⟩) = Except.ok [])
    ∧ sync_content bothAuthSession
        { yt := YtApiResult.success ⟨some []⟩,
          rd := RedditApiResult.success [RedditSaved.submission "t" "/p" "r"] } 100
      = ({ bothAuthSession with
            youtube_videos := [],
            reddit_posts := [{ title := "t", url := "https://reddit.com" ++ "/p", subreddit := "r" }],
            last_sync_time := 100 },
         none, [Provider.youtube, Provider.reddit]) := by
  refine ⟨⟨by decide, rfl⟩, ?_⟩
  have h := (stale_sync_fetches bothAuthSession
    { yt := YtApiResult.success ⟨some []⟩,
      rd := RedditApiResult.success [RedditSaved.submission "t" "/p" "r"] } 100 []
    (by decide) rfl).1
  simpa using h

/-- C5 counterexample: the claim says the force-sync route always triggers a
fetch attempt for each authenticated provider, for every session state and
every invocation time.  Two violating runs: (a) at invocation time `30 < 60 =
sync_interval`, resetting `last_sync_time` to `0` still leaves the gate fresh
(`30 - 0 < 60`), so an authenticated YouTube provider gets no fetch attempt;
(b) at time `1000`, a YouTube fetch that raises (missing item field) skips the
authenticated Reddit provider's attempt. -/
theorem force_sync_can_skip :
    (sync { initSession with youtube_api := true }
        { yt := YtApiResult.success ⟨some []⟩, rd := RedditApiResult.failure "x" } 30).2.2 = []
    ∧ { initSession with youtube_api := true }.youtube_api = true
    ∧ (sync { bothAuthSession with last_sync_time := 500 } keyErrorEnv 1000).2.2
        = [Provider.youtube]
    ∧ bothAuthSession.reddit = true := by
  decide

/-- C5 (amended): the force-sync route resets `last_sync_time` to zero before
evaluating the gate; provided the invocation time is at least
`sync_interval` (true of any realistic clock reading) and the YouTube fetch
does not propagate an exception (see C1), it triggers exactly one fetch
attempt per authenticated provider and stamps `last_sync_time := now`,
regardless of the previous `last_sync_time` — including elapsed time `0`. -/
theorem force_sync_triggers (s : Session) (env : Env) (now : Int) (vs : List YtVideo)
    (hnow : s.sync_interval ≤ now)
    (hvs : fetch_youtube_saved_videos env.yt = Except.ok vs) :
    sync s env now =
      (Resp.redirectTo "index",
       { s with
          youtube_videos := if s.youtube_api then vs else s.youtube_videos,
          reddit_posts := if s.reddit then fetch_reddit_saved_posts env.rd else s.reddit_posts,
          last_sync_time := now },
       (if s.youtube_api then [Provider.youtube] else [])
         ++ (if s.reddit then [Provider.reddit] else [])) := by
  unfold sync
  rw [sync_content_stale_eq { s with last_sync_time := 0 } env now vs
    (by simpa using hnow) (fun _ => hvs)]

/-- C5 witness: elapsed time is `0` (`last_sync_time = now = 100`), yet the
force-sync route fetches for the authenticated YouTube provider. -/
theorem force_sync_triggers_witness :
    ({ initSession with youtube_api := true, last_sync_time := 100 }.sync_interval ≤ (100 : Int)
      ∧ fetch_youtube_saved_videos (YtApiResult.success ⟨some []⟩) = Except.ok [])
    ∧ sync { initSession with youtube_api := true, last_sync_time := 100 }
        { yt := YtApiResult.success ⟨some []⟩, rd := RedditApiResult.failure "x" } 100
      = (Resp.redirectTo "index",
         { initSession with youtube_api := true, youtube_videos := [], last_sync_time := 100 },
         [Provider.youtube]) := by
  refine ⟨⟨by decide, rfl⟩, ?_⟩
  have h := force_sync_triggers { initSession with youtube_api := true, last_sync_time := 100 }
    { yt := YtApiResult.success ⟨some []⟩, rd := RedditApiResult.failure "x" } 100 []
    (by decide) rfl
  simpa using h

/-- An environment fixture for route-level witnesses. -/
def failEnv : Env := { yt := YtApiResult.httpError "x", rd := RedditApiResult.failure "y" }

/-- C6: a video-callback request lacking `code` or `state` gets HTTP 400 with
body "Error: Missing code or state parameter" (which contains the phrase
"Missing code or state parameter"), the session — in particular
`oauth_state` — is unchanged, and no token exchange is attempted. -/
theorem youtube_callback_missing_params (args : QueryArgs) (s : Session)
    (ex : Except String String) (env : Env) (now : Int)
    (h : args.code = none ∨ args.state = none) :
    youtube_callback args s ex env now
      = (Resp.plain "Error: Missing code or state parameter" 400, s, false)
    ∧ (youtube_callback args s ex env now).2.1.oauth_state = s.oauth_state := by
  cases hc : args.code <;> cases hs : args.state <;> simp_all [youtube_callback]

/-- C6 witness. -/
theorem youtube_callback_missing_params_witness :
    ((⟨none, none⟩ : QueryArgs).code = none ∨ (⟨none, none⟩ : QueryArgs).state = none)
    ∧ youtube_callback ⟨none, none⟩ initSession (Except.ok "c") failEnv 0
      = (Resp.plain "Error: Missing code or state parameter" 400, initSession, false)
    ∧ (youtube_callback ⟨none, none⟩ initSession (Except.ok "c") failEnv 0).2.1.oauth_state
      = initSession.oauth_state :=
  ⟨Or.inl rfl,
   (youtube_callback_missing_params ⟨none, none⟩ initSession (Except.ok "c") failEnv 0
     (Or.inl rfl)).1,
   (youtube_callback_missing_params ⟨none, none⟩ initSession (Except.ok "c") failEnv 0
     (Or.inl rfl)).2⟩

/-- C7: a video-callback request carrying both `code` and `state`, when the
stored `oauth_state` is absent or differs from the supplied `state`, gets HTTP
400 with body "Error: OAuth state mismatch"; the session is returned unchanged
(no credential storage) and no token exchange is attempted. -/
theorem youtube_callback_state_mismatch (args : QueryArgs) (s : Session)
    (ex : Except String String) (env : Env) (now : Int) (c st : String)
    (hc : args.code = some c) (hs : args.state = some st)
    (hm : s.oauth_state = none ∨ s.oauth_state ≠ some st) :
    youtube_callback args s ex env now
      = (Resp.plain "Error: OAuth state mismatch" 400, s, false) := by
  simp only [youtube_callback, hc, hs]
  rw [if_pos hm]

/-- C7 witness. -/
theorem youtube_callback_state_mismatch_witness :
    ((⟨some "c1", some "zzz"⟩ : QueryArgs).code = some "c1"
      ∧ (⟨some "c1", some "zzz"⟩ : QueryArgs).state = some "zzz"
      ∧ { initSession with oauth_state := some "abc" }.oauth_state ≠ some "zzz")
    ∧ youtube_callback ⟨some "c1", some "zzz"⟩ { initSession with oauth_state := some "abc" }
        (Except.ok "c") failEnv 0
      = (Resp.plain "Error: OAuth state mismatch" 400,
         { initSession with oauth_state := some "abc" }, false) :=
  ⟨⟨rfl, rfl, by decide⟩,
   youtube_callback_state_mismatch ⟨some "c1", some "zzz"⟩
     { initSession with oauth_state := some "abc" } (Except.ok "c") failEnv 0 "c1" "zzz"
     rfl rfl (Or.inr (by decide))⟩

/-- C8: the discussion callback returns HTTP 400 with body
"Reddit login failed: " followed by the underlying error text when `code` is
present but the token exchange raises; when `code` is absent it returns HTTP
400 ("Error: Missing code parameter") without attempting an exchange. -/
theorem reddit_callback_errors (args : QueryArgs) (s : Session) (auth : Except String Unit)
    (env : Env) (now : Int) :
    (args.code = none →
      reddit_callback args s auth env now
        = (Resp.plain "Error: Missing code parameter" 400, s, false))
    ∧ (∀ c e, args.code = some c → auth = Except.error e →
      reddit_callback args s auth env now
        = (Resp.plain ("Reddit login failed: " ++ e) 400, s, true)) := by
  constructor
  · intro h
    simp [reddit_callback, h]
  · intro c e hc ha
    simp [reddit_callback, hc, ha]

/-- C8 witness. -/
theorem reddit_callback_errors_witness :
    reddit_callback ⟨none, none⟩ initSession (Except.ok ()) failEnv 0
      = (Resp.plain "Error: Missing code parameter" 400, initSession, false)
    ∧ reddit_callback ⟨some "cc", none⟩ initSession (Except.error "bad code") failEnv 0
      = (Resp.plain ("Reddit login failed: " ++ "bad code") 400, initSession, true) :=
  ⟨(reddit_callback_errors ⟨none, none⟩ initSession (Except.ok ()) failEnv 0).1 rfl,
   (reddit_callback_errors ⟨some "cc", none⟩ initSession (Except.error "bad code") failEnv 0).2
     "cc" "bad code" rfl rfl⟩

/-- C9: provided each provider's response honors the requested caps
(`maxResults=10` / `limit=10` — an API contract of the out-of-scope provider
services), a successful YouTube fetch returns at most 10 records with the
`i`-th record the normalization of the `i`-th response item (provider order),
and the Reddit fetch returns exactly the in-order `filterMap` normalization of
the listing, again at most 10 records. -/
theorem fetch_cap_and_order (resp : YtResponse) (vs : List YtVideo) (saved : List RedditSaved)
    (hcap : (resp.items.getD []).length ≤ 10) (hscap : saved.length ≤ 10)
    (hy : fetch_youtube_saved_videos (YtApiResult.success resp) = Except.ok vs) :
    vs.length ≤ 10
    ∧ (∀ i (h1 : i < (resp.items.getD []).length) (h2 : i < vs.length),
        normalizeYtItem ((resp.items.getD []).get ⟨i, h1⟩) = Except.ok (vs.get ⟨i, h2⟩))
    ∧ fetch_reddit_saved_posts (RedditApiResult.success saved)
        = saved.filterMap normalizeRedditItem
    ∧ (fetch_reddit_saved_posts (RedditApiResult.success saved)).length ≤ 10 := by
  have hred : fetch_reddit_saved_posts (RedditApiResult.success saved)
      = saved.filterMap normalizeRedditItem := rfl
  have hredlen : (fetch_reddit_saved_posts (RedditApiResult.success saved)).length ≤ 10 := by
    rw [hred]
    exact le_trans (List.length_filterMap_le _ _) hscap
  have hy1 : (match normalizeYtList (resp.items.getD []) with
      | Except.ok l => Except.ok l
      | Except.error e => if e.isHttp then Except.ok ([] : List YtVideo) else Except.error e)
      = Except.ok vs := hy
  cases hb : normalizeYtList (resp.items.getD []) with
  | ok vs1 =>
    rw [hb] at hy1
    obtain ⟨hlen, hpt⟩ := normalizeYtList_ok _ _ hb
    cases hy1
    exact ⟨hlen ▸ hcap, hpt, hred, hredlen⟩
  | error e =>
    rw [hb] at hy1
    cases he : e.isHttp <;> simp [he] at hy1
    subst hy1
    refine ⟨by simp, ?_, hred, hredlen⟩
    intro i h1 h2
    simp at h2

/-- C9 witness fixtures: one fully-populated YouTube item and its record. -/
def goodYtItem : YtItem := ⟨some "id1", some ⟨some "T", some ⟨some ⟨some "U"⟩⟩⟩⟩

/-- The normalization of `goodYtItem`. -/
def goodYtVideo : YtVideo := ⟨"T", "https://www.youtube.com/watch?v=id1", "U"⟩

/-- C9 witness. -/
theorem fetch_cap_and_order_witness :
    ((({ items := some [goodYtItem] } : YtResponse).items.getD []).length ≤ 10
      ∧ ([RedditSaved.submission "t" "/p" "x", RedditSaved.comment] : List RedditSaved).length ≤ 10
      ∧ fetch_youtube_saved_videos (YtApiResult.success { items := some [goodYtItem] })
          = Except.ok [goodYtVideo])
    ∧ [goodYtVideo].length ≤ 10
    ∧ fetch_reddit_saved_posts
        (RedditApiResult.success [RedditSaved.submission "t" "/p" "x", RedditSaved.comment])
      = [RedditSaved.submission "t" "/p" "x", RedditSaved.comment].filterMap normalizeRedditItem :=
  ⟨⟨by decide, by decide, rfl⟩,
   (fetch_cap_and_order { items := some [goodYtItem] } [goodYtVideo]
     [RedditSaved.submission "t" "/p" "x", RedditSaved.comment]
     (by decide) (by decide) rfl).1,
   (fetch_cap_and_order { items := some [goodYtItem] } [goodYtVideo]
     [RedditSaved.submission "t" "/p" "x", RedditSaved.comment]
     (by decide) (by decide) rfl).2.2.1⟩

/-- C10: with neither client handle active and a stale gate, `sync_content`
still stamps `last_sync_time := now` while leaving both cached lists (indeed
the rest of the session) unchanged and attempting no fetch; hence an
unauthenticated landing-route request consumes the sync window and redirects
to the login chooser with the timestamped session. -/
theorem unauth_stale_sync_consumes_window (s : Session) (env : Env) (now : Int)
    (hyt : s.youtube_api = false) (hrd : s.reddit = false)
    (hst : s.sync_interval ≤ now - s.last_sync_time) :
    sync_content s env now = ({ s with last_sync_time := now }, none, [])
    ∧ (optStrTruthy s.youtube_credentials = false →
        index s env now = (Resp.redirectTo "login", { s with last_sync_time := now })) := by
  have h1 : sync_content s env now = ({ s with last_sync_time := now }, none, []) := by
    unfold sync_content redditStep
    rw [if_pos hst]
    simp [hyt, hrd]
  refine ⟨h1, fun hcred => ?_⟩
  unfold index
  rw [h1]
  simp [hcred, hrd]

/-- C10 witness. -/
theorem unauth_stale_sync_consumes_window_witness :
    (initSession.youtube_api = false ∧ initSession.reddit = false
      ∧ initSession.sync_interval ≤ (100 : Int) - initSession.last_sync_time
      ∧ optStrTruthy initSession.youtube_credentials = false)
    ∧ sync_content initSession failEnv 100
      = ({ initSession with last_sync_time := 100 }, none, [])
    ∧ index initSession failEnv 100
      = (Resp.redirectTo "login", { initSession with last_sync_time := 100 }) :=
  ⟨⟨rfl, rfl, by decide, rfl⟩,
   (unauth_stale_sync_consumes_window initSession failEnv 100 rfl rfl (by decide)).1,
   (unauth_stale_sync_consumes_window initSession failEnv 100 rfl rfl (by decide)).2 rfl⟩

end Saver
